import Mathlib

/-!
Verification of the heart-disease risk-scoring and report-assembly core
(`src/data_processing/models.py`, `src/data_processing/algorithm_interface.py`,
`src/visualization/report_generator.py`, `src/ui/user_interface.py`).

Python floats are modelled as exact rationals (`ℚ`); all weights and
thresholds in the source are short decimal literals, which `ℚ` represents
exactly.  Python `dict` lookups that can raise `KeyError` are modelled
with `Option`; the enum constructors that raise `ValueError` on unknown
codes are modelled with `Option`-returning decoders.
-/

namespace HeartApp

/-- `Gender` enum from `models.py` (MALE = 1, FEMALE = 0). -/
inductive Gender
  | MALE
  | FEMALE
deriving DecidableEq, Repr

/-- Integer code of a `Gender`, as a rational (the code converts enum values
with `float(...)` in `to_csv_row`). -/
def Gender.value : Gender → ℚ
  | .MALE => 1
  | .FEMALE => 0

/-- `Gender(int_code)` construction: raises (here `none`) on unknown codes. -/
def Gender.fromCode : Int → Option Gender
  | 1 => some .MALE
  | 0 => some .FEMALE
  | _ => none

/-- `ChestPainType` enum from `models.py` (codes 1-4). -/
inductive ChestPainType
  | TYPICAL_ANGINA
  | ATYPICAL_ANGINA
  | NON_ANGINAL_PAIN
  | ASYMPTOMATIC
deriving DecidableEq, Repr

/-- Integer code of a `ChestPainType`. -/
def ChestPainType.value : ChestPainType → ℚ
  | .TYPICAL_ANGINA => 1
  | .ATYPICAL_ANGINA => 2
  | .NON_ANGINAL_PAIN => 3
  | .ASYMPTOMATIC => 4

/-- `ChestPainType(int_code)` construction: `none` on unknown codes. -/
def ChestPainType.fromCode : Int → Option ChestPainType
  | 1 => some .TYPICAL_ANGINA
  | 2 => some .ATYPICAL_ANGINA
  | 3 => some .NON_ANGINAL_PAIN
  | 4 => some .ASYMPTOMATIC
  | _ => none

/-- `RestingECG` enum from `models.py` (codes 0-2). -/
inductive RestingECG
  | NORMAL
  | ST_T_ABNORMALITY
  | LEFT_VENTRICULAR_HYPERTROPHY
deriving DecidableEq, Repr

/-- Integer code of a `RestingECG`. -/
def RestingECG.value : RestingECG → ℚ
  | .NORMAL => 0
  | .ST_T_ABNORMALITY => 1
  | .LEFT_VENTRICULAR_HYPERTROPHY => 2

/-- `RestingECG(int_code)` construction: `none` on unknown codes. -/
def RestingECG.fromCode : Int → Option RestingECG
  | 0 => some .NORMAL
  | 1 => some .ST_T_ABNORMALITY
  | 2 => some .LEFT_VENTRICULAR_HYPERTROPHY
  | _ => none

/-- `Slope` enum from `models.py` (codes 1-3). -/
inductive Slope
  | UPSLOPING
  | FLAT
  | DOWNSLOPING
deriving DecidableEq, Repr

/-- Integer code of a `Slope`. -/
def Slope.value : Slope → ℚ
  | .UPSLOPING => 1
  | .FLAT => 2
  | .DOWNSLOPING => 3

/-- `Slope(int_code)` construction: `none` on unknown codes. -/
def Slope.fromCode : Int → Option Slope
  | 1 => some .UPSLOPING
  | 2 => some .FLAT
  | 3 => some .DOWNSLOPING
  | _ => none

/-- `Thalassemia` enum from `models.py` (non-contiguous codes 3/6/7). -/
inductive Thalassemia
  | NORMAL
  | FIXED_DEFECT
  | REVERSIBLE_DEFECT
deriving DecidableEq, Repr

/-- Integer code of a `Thalassemia`. -/
def Thalassemia.value : Thalassemia → ℚ
  | .NORMAL => 3
  | .FIXED_DEFECT => 6
  | .REVERSIBLE_DEFECT => 7

/-- `Thalassemia(int_code)` construction: `none` on unknown codes. -/
def Thalassemia.fromCode : Int → Option Thalassemia
  | 3 => some .NORMAL
  | 6 => some .FIXED_DEFECT
  | 7 => some .REVERSIBLE_DEFECT
  | _ => none

/-- `PatientData` dataclass from `models.py`.  The dataclass performs no
field validation: numeric fields are plain Python ints/floats with no range
check, so they are modelled as unconstrained `Int`/`ℚ`; only the enum-typed
fields are constrained, by their Lean types, exactly as Python constrains
them through the enum constructors. -/
structure PatientData where
  age : Int
  sex : Gender
  chest_pain_type : ChestPainType
  resting_blood_pressure : Int
  cholesterol : Int
  fasting_blood_sugar : Bool
  resting_ecg : RestingECG
  max_heart_rate : Int
  exercise_induced_angina : Bool
  st_depression : ℚ
  slope_peak_exercise : Slope
  major_vessels : Int
  thalassemia : Thalassemia
deriving DecidableEq, Repr

/-- `PatientData.to_csv_row`: the canonical ordered 13-float encoding. -/
def to_csv_row (p : PatientData) : List ℚ :=
  [ (p.age : ℚ),
    p.sex.value,
    p.chest_pain_type.value,
    (p.resting_blood_pressure : ℚ),
    (p.cholesterol : ℚ),
    (if p.fasting_blood_sugar then 1 else 0),
    p.resting_ecg.value,
    (p.max_heart_rate : ℚ),
    (if p.exercise_induced_angina then 1 else 0),
    p.st_depression,
    p.slope_peak_exercise.value,
    (p.major_vessels : ℚ),
    p.thalassemia.value ]

/-- The accumulation inside `_calculate_cad_risk` before the final
`min(risk, 1.0)` clamp (the local variable `risk` at the `return` line). -/
def cad_risk_raw (age sex cp chol thalach ca thal : ℚ) : ℚ :=
  let risk : ℚ := 0
  let risk := if age > 60 then risk + 0.3 else if age > 45 then risk + 0.15 else risk
  let risk := if sex = 1 then risk + 0.1 else risk
  let risk := if cp = 1 ∨ cp = 2 then risk + 0.25 else risk
  let risk := if chol > 240 then risk + 0.2 else if chol > 200 then risk + 0.1 else risk
  let risk := risk + ca * 0.15
  let risk := if thal = 6 ∨ thal = 7 then risk + 0.2 else risk
  let expected_max_hr := 220 - age
  if thalach < expected_max_hr * 0.8 then risk + 0.15 else risk

/-- `AlgorithmInterface._calculate_cad_risk`. -/
def calculate_cad_risk (age sex cp chol thalach ca thal : ℚ) : ℚ :=
  min (cad_risk_raw age sex cp chol thalach ca thal) 1

/-- The accumulation inside `_calculate_heart_attack_risk` before the clamp. -/
def heart_attack_risk_raw (age sex trestbps chol exang oldpeak : ℚ) : ℚ :=
  let risk : ℚ := 0
  let risk := if age > 65 then risk + 0.25 else risk
  let risk :=
    if sex = 1 ∧ age > 45 then risk + 0.15
    else if sex = 0 ∧ age > 55 then risk + 0.15
    else risk
  let risk := if trestbps > 140 then risk + 0.2 else if trestbps > 130 then risk + 0.1 else risk
  let risk := if chol > 240 then risk + 0.2 else risk
  let risk := if exang = 1 then risk + 0.25 else risk
  if oldpeak > 2.0 then risk + 0.2 else if oldpeak > 1.0 then risk + 0.1 else risk

/-- `AlgorithmInterface._calculate_heart_attack_risk`. -/
def calculate_heart_attack_risk (age sex trestbps chol exang oldpeak : ℚ) : ℚ :=
  min (heart_attack_risk_raw age sex trestbps chol exang oldpeak) 1

/-- The accumulation inside `_calculate_arrhythmia_risk` before the clamp. -/
def arrhythmia_risk_raw (age restecg thalach exang : ℚ) : ℚ :=
  let risk : ℚ := 0
  let risk := if restecg = 1 ∨ restecg = 2 then risk + 0.3 else risk
  let risk := if age > 70 then risk + 0.2 else risk
  let expected_max_hr := 220 - age
  let risk :=
    if thalach > expected_max_hr * 0.95 ∨ thalach < expected_max_hr * 0.6 then risk + 0.2
    else risk
  if exang = 1 then risk + 0.15 else risk

/-- `AlgorithmInterface._calculate_arrhythmia_risk`. -/
def calculate_arrhythmia_risk (age restecg thalach exang : ℚ) : ℚ :=
  min (arrhythmia_risk_raw age restecg thalach exang) 1

/-- `AlgorithmInterface._get_cad_factors` (the `sex` parameter is accepted
and unused, as in the source). -/
def get_cad_factors (age sex cp chol ca thal : ℚ) : List String :=
  let factors : List String := []
  let factors :=
    if age > 60 then factors ++ ["Advanced age (" ++ toString age ++ " years)"] else factors
  let factors :=
    if cp = 1 ∨ cp = 2 then factors ++ ["Chest pain pattern consistent with angina"] else factors
  let factors :=
    if chol > 240 then factors ++ ["High cholesterol (" ++ toString chol ++ " mg/dl)"]
    else factors
  let factors :=
    if ca > 0 then factors ++ ["Blocked major vessels (" ++ toString ca ++ ")"] else factors
  if thal = 6 ∨ thal = 7 then factors ++ ["Abnormal thalassemia test"] else factors

/-- `AlgorithmInterface._get_heart_attack_factors` (`sex` unused, as in the
source). -/
def get_heart_attack_factors (age sex trestbps chol exang : ℚ) : List String :=
  let factors : List String := []
  let factors :=
    if age > 65 then factors ++ ["Advanced age (" ++ toString age ++ " years)"] else factors
  let factors :=
    if trestbps > 140 then factors ++ ["High blood pressure (" ++ toString trestbps ++ " mmHg)"]
    else factors
  let factors :=
    if chol > 240 then factors ++ ["High cholesterol (" ++ toString chol ++ " mg/dl)"]
    else factors
  if exang = 1 then factors ++ ["Exercise-induced chest pain"] else factors

/-- `AlgorithmInterface._get_arrhythmia_factors`. -/
def get_arrhythmia_factors (restecg thalach exang : ℚ) : List String :=
  let factors : List String := []
  let factors :=
    if restecg = 1 ∨ restecg = 2 then factors ++ ["Abnormal resting ECG"] else factors
  let factors :=
    if thalach < 100 then factors ++ ["Low maximum heart rate (" ++ toString thalach ++ " bpm)"]
    else factors
  if exang = 1 then factors ++ ["Exercise-induced symptoms"] else factors

/-- The per-disease tier expression for CAD in `_simulate_algorithm_response`
(line 84): `"High" if cad_risk > 0.7 else "Medium" if cad_risk > 0.4 else "Low"`. -/
def cad_risk_level (r : ℚ) : String :=
  if r > 0.7 then "High" else if r > 0.4 then "Medium" else "Low"

/-- The tier expression for heart-attack risk (line 101). -/
def heart_attack_risk_level (r : ℚ) : String :=
  if r > 0.6 then "High" else if r > 0.3 then "Medium" else "Low"

/-- The tier expression for arrhythmia risk (line 117). -/
def arrhythmia_risk_level (r : ℚ) : String :=
  if r > 0.6 then "High" else if r > 0.3 then "Medium" else "Low"

/-- One entry of the `disease_results` list built by
`_simulate_algorithm_response` (a Python dict; the keys are the fields). -/
structure SimDiseaseResult where
  disease_name : String
  probability : ℚ
  confidence : ℚ
  key_factors : List String
  factor_weights : List (String × ℚ)
  risk_level : String
deriving DecidableEq, Repr

/-- The response dict of `_simulate_algorithm_response` (the `patient_id`,
`timestamp` and `processing_time_ms` keys are pass-through metadata and are
not modelled). -/
structure SimResponse where
  disease_results : List SimDiseaseResult
  overall_risk_score : ℚ
deriving DecidableEq, Repr

/-- The Python `max` builtin over a list of numbers, as used on the (always
non-empty) probability list; the `[]` case is unreachable there (Python
`max([])` raises). -/
def list_max : List ℚ → ℚ
  | [] => 0
  | [x] => x
  | x :: y :: xs => max x (list_max (y :: xs))

/-- `AlgorithmInterface._simulate_algorithm_response`: unpacks the feature
row exactly as `to_csv_row` lays it out and builds the entries of the three agents. -/
def simulate_algorithm_response (p : PatientData) : SimResponse :=
  let age : ℚ := (p.age : ℚ)
  let sex : ℚ := p.sex.value
  let cp : ℚ := p.chest_pain_type.value
  let trestbps : ℚ := (p.resting_blood_pressure : ℚ)
  let chol : ℚ := (p.cholesterol : ℚ)
  let restecg : ℚ := p.resting_ecg.value
  let thalach : ℚ := (p.max_heart_rate : ℚ)
  let exang : ℚ := if p.exercise_induced_angina then 1 else 0
  let oldpeak : ℚ := p.st_depression
  let ca : ℚ := (p.major_vessels : ℚ)
  let thal : ℚ := p.thalassemia.value
  let cad_risk := calculate_cad_risk age sex cp chol thalach ca thal
  let cad : SimDiseaseResult :=
    { disease_name := "Coronary Artery Disease"
      probability := cad_risk
      confidence := 0.85
      key_factors := get_cad_factors age sex cp chol ca thal
      factor_weights :=
        [("age", 0.15), ("chest_pain", 0.25), ("cholesterol", 0.20),
         ("major_vessels", 0.25), ("thalassemia", 0.15)]
      risk_level := cad_risk_level cad_risk }
  let ha_risk := calculate_heart_attack_risk age sex trestbps chol exang oldpeak
  let ha : SimDiseaseResult :=
    { disease_name := "Heart Attack Risk"
      probability := ha_risk
      confidence := 0.78
      key_factors := get_heart_attack_factors age sex trestbps chol exang
      factor_weights :=
        [("age", 0.20), ("blood_pressure", 0.25), ("cholesterol", 0.20),
         ("exercise_angina", 0.25), ("st_depression", 0.10)]
      risk_level := heart_attack_risk_level ha_risk }
  let arr_risk := calculate_arrhythmia_risk age restecg thalach exang
  let arr : SimDiseaseResult :=
    { disease_name := "Arrhythmia Risk"
      probability := arr_risk
      confidence := 0.72
      key_factors := get_arrhythmia_factors restecg thalach exang
      factor_weights :=
        [("resting_ecg", 0.30), ("max_heart_rate", 0.25),
         ("exercise_angina", 0.25), ("age", 0.20)]
      risk_level := arrhythmia_risk_level arr_risk }
  let results := [cad, ha, arr]
  { disease_results := results
    overall_risk_score := list_max (results.map (fun r => r.probability)) }

/-- `DiseaseAnalysisResult` dataclass from `models.py` (the
`factor_weights` dict is modelled as an association list). -/
structure DiseaseAnalysisResult where
  disease_name : String
  probability : ℚ
  confidence : ℚ
  key_factors : List String
  factor_weights : List (String × ℚ)
  risk_level : String
  recommendations : List String
deriving DecidableEq, Repr

/-- The Python substring test `needle in hay`, via `splitOn`: the needle
occurs in the haystack exactly when splitting on it yields more than one
piece. -/
def str_contains (hay needle : String) : Bool :=
  (hay.splitOn needle).length > 1

/-- `AlgorithmInterface._generate_recommendations`. -/
def generate_recommendations (d : SimDiseaseResult) : List String :=
  if str_contains d.disease_name "Coronary" then
    if d.risk_level = "High" then
      ["Immediate consultation with a cardiologist",
       "Consider cardiac catheterization",
       "Start aggressive cholesterol management",
       "Lifestyle modifications: diet and exercise"]
    else if d.risk_level = "Medium" then
      ["Follow-up with primary care physician",
       "Stress testing recommended",
       "Monitor cholesterol levels",
       "Adopt heart-healthy lifestyle"]
    else []
  else if str_contains d.disease_name "Heart Attack" then
    if d.risk_level = "High" then
      ["Urgent cardiology evaluation",
       "Blood pressure management",
       "Consider preventive medications",
       "Emergency action plan discussion"]
    else if d.risk_level = "Medium" then
      ["Regular monitoring",
       "Blood pressure control",
       "Lifestyle counseling"]
    else []
  else if str_contains d.disease_name "Arrhythmia" then
    if d.risk_level = "High" then
      ["Electrophysiology consultation",
       "Holter monitor study",
       "Medication review"]
    else []
  else []

/-- `set.add` on a Python set, modelled as insertion-ordered
deduplication: membership is faithful, iteration order of the Python set
is implementation-defined and not modelled. -/
def set_add (l : List String) (s : String) : List String :=
  if s ∈ l then l else l ++ [s]

/-- `AlgorithmInterface._generate_overall_recommendations`. -/
def generate_overall_recommendations (ds : List DiseaseAnalysisResult) : List String :=
  let recs : List String := []
  let high_risk_count := (ds.filter (fun d => d.risk_level = "High")).length
  let medium_risk_count := (ds.filter (fun d => d.risk_level = "Medium")).length
  let recs :=
    if high_risk_count > 0 then
      set_add (set_add recs "Schedule immediate medical consultation")
        "Consider comprehensive cardiac evaluation"
    else recs
  let recs :=
    if medium_risk_count > 0 ∨ high_risk_count > 0 then
      set_add (set_add recs "Implement heart-healthy lifestyle changes")
        "Regular monitoring and follow-up"
    else recs
  let recs := set_add recs "Discuss results with healthcare provider"
  set_add recs "Keep detailed health records"

/-- `ComprehensiveAnalysisResult` dataclass from `models.py` (the
wall-clock `timestamp` string is metadata and is not modelled). -/
structure ComprehensiveAnalysisResult where
  patient_id : String
  patient_data : PatientData
  disease_results : List DiseaseAnalysisResult
  overall_risk_score : ℚ
  primary_concerns : List String
  recommended_actions : List String
deriving DecidableEq, Repr

/-- `AlgorithmInterface._parse_algorithm_results`. -/
def parse_algorithm_results (results : SimResponse) (p : PatientData)
    (pid : String) : ComprehensiveAnalysisResult :=
  let disease_results := results.disease_results.map (fun d =>
    { disease_name := d.disease_name
      probability := d.probability
      confidence := d.confidence
      key_factors := d.key_factors
      factor_weights := d.factor_weights
      risk_level := d.risk_level
      recommendations := generate_recommendations d : DiseaseAnalysisResult })
  let overall_recommendations := generate_overall_recommendations disease_results
  let primary_concerns :=
    (disease_results.filter (fun d => d.risk_level = "High" ∨ d.risk_level = "Medium")).map
      (fun d => d.disease_name)
  { patient_id := pid
    patient_data := p
    disease_results := disease_results
    overall_risk_score := results.overall_risk_score
    primary_concerns := primary_concerns
    recommended_actions := overall_recommendations }

/-- `AlgorithmInterface._create_error_result`. -/
def create_error_result (p : PatientData) (pid : String)
    (error_message : String) : ComprehensiveAnalysisResult :=
  let error_result : DiseaseAnalysisResult :=
    { disease_name := "Analysis Error"
      probability := 0
      confidence := 0
      key_factors := ["Error: " ++ error_message]
      factor_weights := []
      risk_level := "Unknown"
      recommendations := ["Please try again later", "Consult with healthcare provider"] }
  { patient_id := pid
    patient_data := p
    disease_results := [error_result]
    overall_risk_score := 0
    primary_concerns := ["System Error"]
    recommended_actions := ["Contact technical support", "Retry analysis"] }

/-- `AlgorithmInterface.send_patient_data`, with the body of its `try`
block abstracted as an `Except`-valued computation: `.ok r` is the normal
path returning `r`, `.error e` models any exception raised inside the
block, which the `except` clause turns into `_create_error_result`. -/
def send_patient_data (body : Except String ComprehensiveAnalysisResult)
    (p : PatientData) (pid : String) : ComprehensiveAnalysisResult :=
  match body with
  | .ok r => r
  | .error e => create_error_result p pid e

/-- The successful path of `send_patient_data`: simulate then parse. -/
def analyze_patient (p : PatientData) (pid : String) : ComprehensiveAnalysisResult :=
  parse_algorithm_results (simulate_algorithm_response p) p pid

/-- The risk-level histogram of `ReportGenerator._calculate_risk_distribution`. -/
structure RiskDistribution where
  low : Nat
  medium : Nat
  high : Nat
deriving DecidableEq, Repr

/-- One `distribution[disease.risk_level] += 1` step of
`_calculate_risk_distribution`: a `risk_level` outside the three dict keys
raises `KeyError`, modelled as `none`. -/
def risk_distribution_step (acc : Option RiskDistribution)
    (d : DiseaseAnalysisResult) : Option RiskDistribution :=
  acc.bind (fun dist =>
    if d.risk_level = "Low" then some { dist with low := dist.low + 1 }
    else if d.risk_level = "Medium" then some { dist with medium := dist.medium + 1 }
    else if d.risk_level = "High" then some { dist with high := dist.high + 1 }
    else none)

/-- `ReportGenerator._calculate_risk_distribution`: starts from
the zeroed Low/Medium/High histogram and increments per estimate. -/
def calculate_risk_distribution (ds : List DiseaseAnalysisResult) : Option RiskDistribution :=
  ds.foldl risk_distribution_step (some ⟨0, 0, 0⟩)

/-- The `risk_assessment` section of `ReportGenerator
.generate_comprehensive_report` (built by `_generate_risk_assessment`,
which calls `_calculate_risk_distribution` with no exception handler, so a
`KeyError` there propagates out of report assembly: `none`).  The
percent-formatted `disease_risks` table is display-only and not modelled. -/
structure RiskAssessment where
  overall_risk_score : ℚ
  primary_concerns : List String
  risk_distribution : RiskDistribution
deriving DecidableEq, Repr

/-- `ReportGenerator._generate_risk_assessment`. -/
def generate_risk_assessment (c : ComprehensiveAnalysisResult) : Option RiskAssessment :=
  (calculate_risk_distribution c.disease_results).map (fun dist =>
    { overall_risk_score := c.overall_risk_score
      primary_concerns := c.primary_concerns
      risk_distribution := dist })

/-- `UserInterface._parse_form_data`, after the string-to-number
conversions (a non-numeric string raises upstream; here the fields arrive
as numbers): only the enum fields are validated, through the
`Option`-returning code decoders; no numeric field has any range check. -/
def parse_form_data (age : Int) (sexCode : Int) (cpCode : Int)
    (resting_bp : Int) (cholesterol : Int) (fasting_bs : Bool)
    (ecgCode : Int) (max_hr : Int) (exercise_angina : Bool)
    (st_depression : ℚ) (slopeCode : Int) (major_vessels : Int)
    (thalCode : Int) : Option PatientData := do
  let sex ← Gender.fromCode sexCode
  let chest_pain_type ← ChestPainType.fromCode cpCode
  let resting_ecg ← RestingECG.fromCode ecgCode
  let slope ← Slope.fromCode slopeCode
  let thalassemia ← Thalassemia.fromCode thalCode
  pure
    { age := age
      sex := sex
      chest_pain_type := chest_pain_type
      resting_blood_pressure := resting_bp
      cholesterol := cholesterol
      fasting_blood_sugar := fasting_bs
      resting_ecg := resting_ecg
      max_heart_rate := max_hr
      exercise_induced_angina := exercise_angina
      st_depression := st_depression
      slope_peak_exercise := slope
      major_vessels := major_vessels
      thalassemia := thalassemia }

/-- The wording of the spec of the CAD formula, written independently of the
sequential accumulation of the code: a sum of guarded weights, clamped to at
most 1.0. -/
def cad_risk_spec (age sex cp chol thalach ca thal : ℚ) : ℚ :=
  min ((if age > 60 then 0.3 else if age > 45 then 0.15 else 0)
      + (if sex = 1 then 0.1 else 0)
      + (if cp = 1 ∨ cp = 2 then 0.25 else 0)
      + (if chol > 240 then 0.2 else if chol > 200 then 0.1 else 0)
      + ca * 0.15
      + (if thal = 6 ∨ thal = 7 then 0.2 else 0)
      + (if thalach < 0.8 * (220 - age) then 0.15 else 0)) 1

/-- CAD probability of a Patient Record: `_calculate_cad_risk` applied to
the feature encoding of the record, as `_simulate_algorithm_response` does. -/
def cad_probability (p : PatientData) : ℚ :=
  calculate_cad_risk (p.age : ℚ) p.sex.value p.chest_pain_type.value
    (p.cholesterol : ℚ) (p.max_heart_rate : ℚ) (p.major_vessels : ℚ) p.thalassemia.value

/-- Validity of a Patient Record: the declared numeric ranges of
`NORMAL_RANGES` in `models.py` (§3 of the spec); the enum fields are valid
by construction of their types. -/
def ValidPatient (p : PatientData) : Prop :=
  1 ≤ p.age ∧ p.age ≤ 120 ∧
  90 ≤ p.resting_blood_pressure ∧ p.resting_blood_pressure ≤ 180 ∧
  100 ≤ p.cholesterol ∧ p.cholesterol ≤ 400 ∧
  60 ≤ p.max_heart_rate ∧ p.max_heart_rate ≤ 220 ∧
  0 ≤ p.st_depression ∧ p.st_depression ≤ 6.2 ∧
  0 ≤ p.major_vessels ∧ p.major_vessels ≤ 3

/-- Every probability and confidence among the estimates of a result lies in
the unit interval. -/
def estimates_in_unit_interval (c : ComprehensiveAnalysisResult) : Prop :=
  ∀ d ∈ c.disease_results,
    (0 ≤ d.probability ∧ d.probability ≤ 1) ∧ (0 ≤ d.confidence ∧ d.confidence ≤ 1)

/-- The overall risk score is the maximum of the probabilities of the estimates:
it is attained by some estimate and bounds them all. -/
def overall_score_is_max (c : ComprehensiveAnalysisResult) : Prop :=
  c.overall_risk_score ∈ c.disease_results.map (fun d => d.probability) ∧
  ∀ x ∈ c.disease_results.map (fun d => d.probability), x ≤ c.overall_risk_score

/-- The primary-concerns list holds exactly the disease names of the
estimates whose tier is Medium or High. -/
def concerns_are_medium_or_high (c : ComprehensiveAnalysisResult) : Prop :=
  ∀ name : String,
    name ∈ c.primary_concerns ↔
      ∃ d ∈ c.disease_results,
        d.disease_name = name ∧ (d.risk_level = "High" ∨ d.risk_level = "Medium")

/-- The minimal degraded shape required of an "Analysis Error" result. -/
def analysis_error_shape (c : ComprehensiveAnalysisResult) : Prop :=
  c.disease_results.length = 1 ∧
  ∀ d ∈ c.disease_results,
    d.disease_name = "Analysis Error" ∧ d.probability = 0 ∧ d.confidence = 0 ∧
    d.risk_level = "Unknown" ∧
    d.recommendations = ["Please try again later", "Consult with healthcare provider"]

/-- All tiers in a list of estimates are among the three histogram keys. -/
def known_tiers (ds : List DiseaseAnalysisResult) : Prop :=
  ∀ d ∈ ds, d.risk_level = "Low" ∨ d.risk_level = "Medium" ∨ d.risk_level = "High"

/-- The worked example record of the spec (§8): age 54, male, typical
angina, BP 150, cholesterol 280, fasting sugar elevated, ST-T abnormality,
max HR 145, exercise angina, ST depression 2.3, flat slope, 2 vessels,
reversible defect. -/
def examplePatient : PatientData :=
  { age := 54
    sex := .MALE
    chest_pain_type := .TYPICAL_ANGINA
    resting_blood_pressure := 150
    cholesterol := 280
    fasting_blood_sugar := true
    resting_ecg := .ST_T_ABNORMALITY
    max_heart_rate := 145
    exercise_induced_angina := true
    st_depression := 2.3
    slope_peak_exercise := .FLAT
    major_vessels := 2
    thalassemia := .REVERSIBLE_DEFECT }

/-- A record the form parser accepts although `major_vessels = -1` is
outside the documented 0-3 range: every enum code is valid and no numeric
range is checked. -/
def outOfRangePatient : PatientData :=
  { age := 30
    sex := .FEMALE
    chest_pain_type := .NON_ANGINAL_PAIN
    resting_blood_pressure := 120
    cholesterol := 180
    fasting_blood_sugar := false
    resting_ecg := .NORMAL
    max_heart_rate := 170
    exercise_induced_angina := false
    st_depression := 0
    slope_peak_exercise := .UPSLOPING
    major_vessels := -1
    thalassemia := .NORMAL }

/-- A small list of estimates with ordinary tiers, used to instantiate
hypotheses on concrete inputs. -/
def sampleEstimates : List DiseaseAnalysisResult :=
  [ { disease_name := "Coronary Artery Disease"
      probability := 0.2
      confidence := 0.85
      key_factors := []
      factor_weights := []
      risk_level := "Low"
      recommendations := [] },
    { disease_name := "Heart Attack Risk"
      probability := 0.8
      confidence := 0.78
      key_factors := []
      factor_weights := []
      risk_level := "High"
      recommendations := [] } ]

/-! ### Helper lemmas -/

theorem mem_set_add_self (l : List String) (s : String) : s ∈ set_add l s := by
  unfold set_add
  split_ifs with h
  · exact h
  · simp

theorem mem_set_add_of_mem {l : List String} {s : String} (t : String)
    (h : s ∈ l) : s ∈ set_add l t := by
  unfold set_add
  split_ifs
  · exact h
  · simp [h]

theorem list_max_mem (l : List ℚ) (h : l ≠ []) : list_max l ∈ l := by
  induction l with
  | nil => exact absurd rfl h
  | cons x xs ih =>
    cases xs with
    | nil => simp [list_max]
    | cons y ys =>
      rcases max_choice x (list_max (y :: ys)) with h1 | h1
      · simp [list_max, h1]
      · have hm := ih (by simp)
        rw [show list_max (x :: y :: ys) = max x (list_max (y :: ys)) from rfl, h1]
        exact List.mem_cons_of_mem _ hm

theorem list_max_ge (l : List ℚ) : ∀ x ∈ l, x ≤ list_max l := by
  induction l with
  | nil => intro x hx; simp at hx
  | cons a as ih =>
    intro x hx
    cases as with
    | nil =>
      simp at hx
      simp [list_max, hx]
    | cons b bs =>
      rw [show list_max (a :: b :: bs) = max a (list_max (b :: bs)) from rfl]
      rcases List.mem_cons.mp hx with rfl | hx2
      · exact le_max_left _ _
      · exact le_trans (ih x hx2) (le_max_right _ _)

theorem ite_add_nonneg {c : Prop} [Decidable c] {r w : ℚ} (hr : 0 ≤ r) (hw : 0 ≤ w) :
    0 ≤ if c then r + w else r := by
  split_ifs <;> linarith

theorem ite_ite_add_nonneg {c d : Prop} [Decidable c] [Decidable d] {r w1 w2 : ℚ}
    (hr : 0 ≤ r) (hw1 : 0 ≤ w1) (hw2 : 0 ≤ w2) :
    0 ≤ if c then r + w1 else if d then r + w2 else r := by
  split_ifs <;> linarith

theorem cad_risk_raw_nonneg {age sex cp chol thalach ca thal : ℚ} (hca : 0 ≤ ca) :
    0 ≤ cad_risk_raw age sex cp chol thalach ca thal := by
  simp only [cad_risk_raw]
  apply ite_add_nonneg _ (by norm_num)
  apply ite_add_nonneg _ (by norm_num)
  apply add_nonneg _ (mul_nonneg hca (by norm_num))
  apply ite_ite_add_nonneg _ (by norm_num) (by norm_num)
  apply ite_add_nonneg _ (by norm_num)
  apply ite_add_nonneg _ (by norm_num)
  apply ite_ite_add_nonneg _ (by norm_num) (by norm_num)
  exact le_refl 0

theorem heart_attack_risk_raw_nonneg (age sex trestbps chol exang oldpeak : ℚ) :
    0 ≤ heart_attack_risk_raw age sex trestbps chol exang oldpeak := by
  simp only [heart_attack_risk_raw]
  apply ite_ite_add_nonneg _ (by norm_num) (by norm_num)
  apply ite_add_nonneg _ (by norm_num)
  apply ite_add_nonneg _ (by norm_num)
  apply ite_ite_add_nonneg _ (by norm_num) (by norm_num)
  apply ite_ite_add_nonneg _ (by norm_num) (by norm_num)
  apply ite_add_nonneg _ (by norm_num)
  exact le_refl 0

theorem arrhythmia_risk_raw_nonneg (age restecg thalach exang : ℚ) :
    0 ≤ arrhythmia_risk_raw age restecg thalach exang := by
  simp only [arrhythmia_risk_raw]
  apply ite_add_nonneg _ (by norm_num)
  apply ite_add_nonneg _ (by norm_num)
  apply ite_add_nonneg _ (by norm_num)
  apply ite_add_nonneg _ (by norm_num)
  exact le_refl 0

theorem parse_probabilities (r : SimResponse) (p : PatientData) (pid : String) :
    (parse_algorithm_results r p pid).disease_results.map (fun d => d.probability) =
      r.disease_results.map (fun d => d.probability) := by
  simp [parse_algorithm_results, List.map_map, Function.comp]

theorem mem_concern_list (L : List DiseaseAnalysisResult) (s : String) :
    s ∈ (L.filter (fun d => d.risk_level = "High" ∨ d.risk_level = "Medium")).map
        (fun d => d.disease_name) ↔
      ∃ d ∈ L, d.disease_name = s ∧ (d.risk_level = "High" ∨ d.risk_level = "Medium") := by
  simp only [List.mem_map, List.mem_filter, decide_eq_true_eq]
  constructor
  · rintro ⟨d, ⟨hd, hg⟩, rfl⟩
    exact ⟨d, hd, rfl, hg⟩
  · rintro ⟨d, hd, rfl, hg⟩
    exact ⟨d, ⟨hd, hg⟩, rfl⟩

theorem risk_distribution_foldl :
    ∀ (ds : List DiseaseAnalysisResult), known_tiers ds →
      ∀ acc : RiskDistribution,
        ∃ dist, ds.foldl risk_distribution_step (some acc) = some dist ∧
          dist.low + dist.medium + dist.high =
            acc.low + acc.medium + acc.high + ds.length
  | [], _, acc => ⟨acc, rfl, by simp⟩
  | d :: rest, h, acc => by
    have hd := h d (List.mem_cons_self _ _)
    have hrest : known_tiers rest := fun x hx => h x (List.mem_cons_of_mem _ hx)
    have step_eq : ∃ dist1 : RiskDistribution,
        risk_distribution_step (some acc) d = some dist1 ∧
          dist1.low + dist1.medium + dist1.high =
            acc.low + acc.medium + acc.high + 1 := by
      rcases hd with h1 | h1 | h1
      · exact ⟨{ acc with low := acc.low + 1 },
          by simp [risk_distribution_step, h1], by dsimp only; omega⟩
      · exact ⟨{ acc with medium := acc.medium + 1 },
          by simp [risk_distribution_step, h1], by dsimp only; omega⟩
      · exact ⟨{ acc with high := acc.high + 1 },
          by simp [risk_distribution_step, h1], by dsimp only; omega⟩
    obtain ⟨acc1, hstep, hsum1⟩ := step_eq
    obtain ⟨dist, hfold, hsum⟩ := risk_distribution_foldl rest hrest acc1
    refine ⟨dist, ?_, ?_⟩
    · rw [List.foldl_cons, hstep]
      exact hfold
    · rw [List.length_cons]
      omega

theorem ite_add_comm {c : Prop} [Decidable c] (r w : ℚ) :
    (if c then r + w else r) = r + (if c then w else 0) := by
  split_ifs <;> ring

theorem ite_ite_add_comm {c d : Prop} [Decidable c] [Decidable d] (r w1 w2 : ℚ) :
    (if c then r + w1 else if d then r + w2 else r) =
      r + (if c then w1 else if d then w2 else 0) := by
  split_ifs <;> ring

theorem cad_risk_raw_sum (age sex cp chol thalach ca thal : ℚ) :
    cad_risk_raw age sex cp chol thalach ca thal =
      (if age > 60 then (0.3 : ℚ) else if age > 45 then 0.15 else 0)
      + (if sex = 1 then 0.1 else 0)
      + (if cp = 1 ∨ cp = 2 then 0.25 else 0)
      + (if chol > 240 then 0.2 else if chol > 200 then 0.1 else 0)
      + ca * 0.15
      + (if thal = 6 ∨ thal = 7 then 0.2 else 0)
      + (if thalach < (220 - age) * 0.8 then 0.15 else 0) := by
  simp only [cad_risk_raw]
  simp only [ite_ite_add_comm]
  simp only [ite_add_comm]
  ring

/-! ### Claims -/

/-- Claim C1: for every Patient Record, the CAD risk probability equals the
clamped additive accumulation the spec describes: start at 0.0; +0.30 if
age>60 else +0.15 if age>45; +0.10 if male; +0.25 if chest-pain code is 1
or 2; +0.20 if cholesterol>240 else +0.10 if cholesterol>200; plus
major-vessel count times 0.15; +0.20 if thalassemia code is 6 or 7; +0.15
if achieved max heart rate < 0.8*(220-age); clamped to at most 1.0. -/
theorem C1_cad_risk_matches_spec (p : PatientData) :
    cad_probability p =
      cad_risk_spec (p.age : ℚ) p.sex.value p.chest_pain_type.value
        (p.cholesterol : ℚ) (p.max_heart_rate : ℚ) (p.major_vessels : ℚ)
        p.thalassemia.value := by
  unfold cad_probability calculate_cad_risk cad_risk_spec
  rw [cad_risk_raw_sum, mul_comm ((220 : ℚ) - (p.age : ℚ)) 0.8]

/-- Claim C2: for every valid Patient Record (all thirteen fields within
their declared ranges and enum codes), every probability and every
confidence among the produced Disease Risk Estimates lies in [0,1]. -/
theorem C2_estimates_in_unit_interval (p : PatientData) (pid : String)
    (h : ValidPatient p) :
    estimates_in_unit_interval (analyze_patient p pid) := by
  obtain ⟨-, -, -, -, -, -, -, -, -, -, hca0, -⟩ := h
  have hca : (0 : ℚ) ≤ (p.major_vessels : ℚ) := by exact_mod_cast hca0
  intro d hd
  simp only [analyze_patient, parse_algorithm_results, simulate_algorithm_response,
    List.map_cons, List.map_nil, List.mem_cons, List.not_mem_nil, or_false] at hd
  rcases hd with rfl | rfl | rfl
  · exact ⟨⟨le_min (cad_risk_raw_nonneg hca) (by norm_num), min_le_right _ _⟩,
      by norm_num, by norm_num⟩
  · exact ⟨⟨le_min (heart_attack_risk_raw_nonneg _ _ _ _ _ _) (by norm_num),
      min_le_right _ _⟩, by norm_num, by norm_num⟩
  · exact ⟨⟨le_min (arrhythmia_risk_raw_nonneg _ _ _ _) (by norm_num),
      min_le_right _ _⟩, by norm_num, by norm_num⟩

/-- Claim C2 witness: the worked example record is valid and every
probability and confidence its analysis produces lies in [0,1]. -/
theorem C2_unit_interval_witness :
    ValidPatient examplePatient ∧
    estimates_in_unit_interval (analyze_patient examplePatient "example") :=
  ⟨by norm_num [ValidPatient, examplePatient],
   C2_estimates_in_unit_interval examplePatient "example"
     (by norm_num [ValidPatient, examplePatient])⟩

/-- Claim C3 counterexample: at the worked example of the spec (age 54, male,
typical angina, cholesterol 280, max HR 145, 2 vessels, reversible
defect), the pre-clamp CAD accumulation is not the claimed 1.35 — age 54
falls in the 45-60 band and contributes 0.15, not 0.30. -/
theorem C3_counterexample_raw_sum : cad_risk_raw 54 1 1 280 145 2 7 ≠ 1.35 := by
  norm_num [cad_risk_raw]

/-- Claim C3 (amended): at the worked example the CAD risk accumulates
0.15 (age, since 45 < 54 ≤ 60) + 0.10 (sex) + 0.25 (chest pain) + 0.20
(cholesterol) + 0.30 (vessels, 2×0.15) + 0.20 (thalassemia) = 1.20 before
clamping, clamps to 1.0, and the CAD risk tier is High. -/
theorem C3_amended_example :
    to_csv_row examplePatient = [54, 1, 1, 150, 280, 1, 1, 145, 1, 2.3, 2, 2, 7] ∧
    cad_risk_raw 54 1 1 280 145 2 7 = 0.15 + 0.10 + 0.25 + 0.20 + 2 * 0.15 + 0.20 ∧
    cad_risk_raw 54 1 1 280 145 2 7 = 1.2 ∧
    calculate_cad_risk 54 1 1 280 145 2 7 = 1 ∧
    cad_risk_level (calculate_cad_risk 54 1 1 280 145 2 7) = "High" := by
  refine ⟨?_, ?_, ?_, ?_, ?_⟩ <;>
    norm_num [to_csv_row, examplePatient, Gender.value, ChestPainType.value,
      RestingECG.value, Slope.value, Thalassemia.value, cad_risk_raw,
      calculate_cad_risk, cad_risk_level]

/-- Claim C4 counterexample: the factor lists are not driven by the same
predicates as the weight accumulation.  A record with age 50 (and every
other CAD factor off) receives the +0.15 age weight yet its CAD factor
list is empty; a record with max HR 105 at age 40 receives the +0.20
arrhythmia heart-rate weight (105 < 0.6×180) yet its arrhythmia factor
list is empty (the factor predicate is max HR < 100). -/
theorem C4_counterexample_factors :
    (cad_risk_raw 50 0 3 180 200 0 3 = 0.15 ∧ get_cad_factors 50 0 3 180 0 3 = []) ∧
    (arrhythmia_risk_raw 40 0 105 0 = 0.2 ∧ get_arrhythmia_factors 0 105 0 = []) := by
  refine ⟨⟨?_, ?_⟩, ⟨?_, ?_⟩⟩ <;>
    norm_num [cad_risk_raw, get_cad_factors, arrhythmia_risk_raw, get_arrhythmia_factors]

/-- Claim C4 (amended): the contributing-factor lists are driven by their
own fixed per-factor predicates, which differ from the weight predicates:
CAD emits exactly one factor string for each of age>60, chest-pain code in
{1,2}, cholesterol>240, vessel count>0 and thalassemia code in {6,7} (so
none for the 45<age≤60 or 200<cholesterol≤240 weight bands, nor for the
sex or heart-rate weights); arrhythmia emits exactly one factor for each
of ECG code in {1,2}, max heart rate < 100 (not the 0.6/0.95×(220−age) band of the weight) and exercise angina. -/
theorem C4_amended_factor_predicates
    (age sex cp chol ca thal restecg thalach exang : ℚ) :
    (get_cad_factors age sex cp chol ca thal).length =
      ((if age > 60 then 1 else 0) + (if cp = 1 ∨ cp = 2 then 1 else 0) +
        (if chol > 240 then 1 else 0) + (if ca > 0 then 1 else 0) +
        (if thal = 6 ∨ thal = 7 then 1 else 0)) ∧
    (get_arrhythmia_factors restecg thalach exang).length =
      ((if restecg = 1 ∨ restecg = 2 then 1 else 0) + (if thalach < 100 then 1 else 0) +
        (if exang = 1 then 1 else 0)) := by
  constructor
  · simp only [get_cad_factors]
    split_ifs <;> simp
  · simp only [get_arrhythmia_factors]
    split_ifs <;> simp

/-- Claim C5 counterexample: after a scoring failure the degraded
"Analysis Error" result reaches report assembly with risk tier "Unknown",
and the risk-assessment section of `generate_comprehensive_report` raises
a KeyError (`none`) on it instead of producing a renderable report. -/
theorem C5_counterexample_report :
    generate_risk_assessment
      (send_patient_data (.error "Algorithm failure") examplePatient "p-err") = none := rfl

/-- Claim C5 (amended): any unexpected failure inside the protected block of `send_patient_data` degrades to the minimal Analysis Error result (probability
0, confidence 0, risk tier "Unknown", generic recommendations) rather than
propagating; report assembly, however, is not protected — its
risk-distribution step raises a KeyError on the "Unknown" tier, so the
presentation layer is not guaranteed a renderable report. -/
theorem C5_amended_degraded_result (p : PatientData) (pid msg : String) :
    analysis_error_shape (send_patient_data (.error msg) p pid) ∧
    generate_risk_assessment (send_patient_data (.error msg) p pid) = none := by
  refine ⟨⟨rfl, ?_⟩, rfl⟩
  intro d hd
  simp only [send_patient_data, create_error_result, List.mem_cons,
    List.not_mem_nil, or_false] at hd
  subst hd
  exact ⟨rfl, rfl, rfl, rfl, rfl⟩

/-- Claim C6: for every analysis, the overall risk score of the Comprehensive Result
score is the maximum probability across the (non-empty) estimate list, and
its primary-concerns list contains exactly the disease names of the
estimates whose risk tier is Medium or High. -/
theorem C6_overall_max_and_concerns (p : PatientData) (pid : String) :
    overall_score_is_max (analyze_patient p pid) ∧
    concerns_are_medium_or_high (analyze_patient p pid) := by
  constructor
  · have hmap : (analyze_patient p pid).disease_results.map (fun d => d.probability) =
        (simulate_algorithm_response p).disease_results.map (fun r => r.probability) :=
      parse_probabilities _ _ _
    have hov : (analyze_patient p pid).overall_risk_score =
        list_max ((simulate_algorithm_response p).disease_results.map
          (fun r => r.probability)) := rfl
    have hne : (simulate_algorithm_response p).disease_results.map
        (fun r => r.probability) ≠ [] := by
      simp [simulate_algorithm_response]
    unfold overall_score_is_max
    rw [hmap, hov]
    exact ⟨list_max_mem _ hne, fun x hx => list_max_ge _ x hx⟩
  · unfold concerns_are_medium_or_high
    intro name
    simp only [analyze_patient, parse_algorithm_results]
    exact mem_concern_list _ name

/-- Claim C7: increasing cholesterol from 200 to 300 while holding every
other field of the Patient Record fixed never decreases the CAD
probability. -/
theorem C7_cholesterol_monotone (p : PatientData) :
    cad_probability { p with cholesterol := 200 } ≤
      cad_probability { p with cholesterol := 300 } := by
  unfold cad_probability calculate_cad_risk
  apply min_le_min _ le_rfl
  simp only [cad_risk_raw]
  norm_num
  split_ifs <;> linarith

/-- Claim C8: for every list of Disease Risk Estimates, the aggregate
recommendation set contains both universal strings. -/
theorem C8_universal_recommendations (ds : List DiseaseAnalysisResult) :
    "Discuss results with healthcare provider" ∈ generate_overall_recommendations ds ∧
    "Keep detailed health records" ∈ generate_overall_recommendations ds := by
  simp only [generate_overall_recommendations]
  exact ⟨mem_set_add_of_mem _ (mem_set_add_self _ _), mem_set_add_self _ _⟩

/-- Claim C9 counterexample: the histogram counts do not always sum to the
number of estimates — on the list produced by `_create_error_result` (one
estimate, risk tier "Unknown") the histogram computation raises a KeyError
(`none`), so no histogram exists at all. -/
theorem C9_counterexample_histogram :
    ¬ ∀ ds : List DiseaseAnalysisResult,
        ∃ dist, calculate_risk_distribution ds = some dist ∧
          dist.low + dist.medium + dist.high = ds.length := by
  intro hall
  obtain ⟨dist, hdist, -⟩ :=
    hall (create_error_result examplePatient "p-err" "boom").disease_results
  rw [show calculate_risk_distribution
      (create_error_result examplePatient "p-err" "boom").disease_results = none from rfl]
    at hdist
  exact Option.noConfusion hdist

/-- Claim C9 (amended): for every list of Disease Risk Estimates whose
risk tiers are all Low, Medium or High, the risk-level histogram exists
and its three counts sum to the number of estimates; a list containing any
other tier (such as the tier "Unknown" of the Analysis Error result) instead makes
the histogram computation raise a KeyError. -/
theorem C9_amended_histogram_total (ds : List DiseaseAnalysisResult)
    (h : known_tiers ds) :
    ∃ dist, calculate_risk_distribution ds = some dist ∧
      dist.low + dist.medium + dist.high = ds.length := by
  obtain ⟨dist, hfold, hsum⟩ := risk_distribution_foldl ds h ⟨0, 0, 0⟩
  exact ⟨dist, hfold, by simpa using hsum⟩

/-- Claim C9 witness: a concrete two-estimate list with ordinary tiers
whose histogram counts sum to 2. -/
theorem C9_histogram_witness :
    known_tiers sampleEstimates ∧
    ∃ dist, calculate_risk_distribution sampleEstimates = some dist ∧
      dist.low + dist.medium + dist.high = sampleEstimates.length := by
  have hk : known_tiers sampleEstimates := by
    intro d hd
    simp only [sampleEstimates, List.mem_cons, List.not_mem_nil, or_false] at hd
    rcases hd with rfl | rfl
    · exact Or.inl rfl
    · exact Or.inr (Or.inr rfl)
  exact ⟨hk, C9_amended_histogram_total sampleEstimates hk⟩

/-- Claim C10: form parsing validates only the enum fields — a form with
`major_vessels = -1` and valid enum codes parses successfully, while an
unknown thalassemia code 5 is rejected — and on the resulting record the
CAD risk calculation, whose clamp is one-sided, returns a negative
probability. -/
theorem C10_no_numeric_range_validation :
    parse_form_data 30 0 3 120 180 false 0 170 false 0 1 (-1) 3 = some outOfRangePatient ∧
    parse_form_data 30 0 3 120 180 false 0 170 false 0 1 (-1) 5 = none ∧
    outOfRangePatient.major_vessels = -1 ∧
    cad_probability outOfRangePatient < 0 := by
  refine ⟨rfl, rfl, rfl, ?_⟩
  norm_num [cad_probability, calculate_cad_risk, cad_risk_raw, outOfRangePatient,
    Gender.value, ChestPainType.value, Thalassemia.value]

end HeartApp
